import Mathlib

/-
Verification of the ionos volume / postgres_backup_info Ansible modules.

This file shallowly embeds the two Python modules
(plugins/modules/volume.py and plugins/modules/postgres_backup_info.py).
Pure lookup helpers become pure Lean functions; a module run becomes a
value of type `Res α`: a step result (normal value, module exit via
fail_json/exit_json, or a propagating Python exception) paired with the
trace of SDK calls performed.  The vendor SDK is opaque: an `SdkEnv`
record assigns each SDK endpoint an outcome (`Except.error` models a
raised SDK exception whose text is the string).
-/

deriving instance DecidableEq for Except

/-- Properties sub-object of an SDK resource model.  The volume models carry
`name`; the postgres cluster models carry `display_name`.  The embedding gives
every resource both fields; only the fields reached through the identity paths
in use are ever observed. -/
structure ResourceProperties where
  name : String
  display_name : String
deriving DecidableEq, Repr

/-- An SDK resource model (Volume, DataCenter, Server, Cluster, ...): an `id`
plus a `properties` sub-object. -/
structure Resource where
  id : String
  properties : ResourceProperties
deriving DecidableEq, Repr

/-- An SDK list model (Volumes, Datacenters, ...): an `id` (used in the
ambiguity error message) and the `items` member. -/
structure ResourceList where
  id : String
  items : List Resource
deriving DecidableEq, Repr

/-- The getattr chains used as identity paths by the modules.  The modules only
ever pass `['id']`, `['properties', 'name']` (the default) and
`['properties', 'display_name']` (postgres_backup_info's cluster lookup). -/
inductive IdentityPath where
  | id
  | propertiesName
  | propertiesDisplayName
deriving DecidableEq, Repr

/-- getattr chain evaluation for an identity path on a resource. -/
def evalPath (r : Resource) : IdentityPath → String
  | IdentityPath.id => r.id
  | IdentityPath.propertiesName => r.properties.name
  | IdentityPath.propertiesDisplayName => r.properties.display_name

/-- identity_paths default value: [[\x27id\x27], [\x27properties\x27, \x27name\x27]]. -/
def defaultIdentityPaths : List IdentityPath :=
  [IdentityPath.id, IdentityPath.propertiesName]

/-- The Python value supplied as the `identity` argument of the lookup helpers.
It is normally a string, but update_volume also passes a Volume object
(its second loop) and a missing parameter passes None. -/
inductive Ident where
  | str (s : String)
  | vol (r : Resource)
  | pynone
deriving DecidableEq, Repr

/-- Coercion of an optional string parameter into an identity value. -/
def optIdent : Option String → Ident
  | some s => Ident.str s
  | none => Ident.pynone

/-- `identity in resource_identity` for a list of attribute strings.  A Volume
object never compares equal to a string (the generated SDK `__eq__` returns
False for non-Volume operands) and neither does None, so only string
identities can match. -/
def identMatches : Ident → List String → Bool
  | Ident.str s, vals => vals.contains s
  | Ident.vol _, _ => false
  | Ident.pynone, _ => false

/-- Rendering of an identity inside the ambiguity error message.  The text
used for the non-string identities is immaterial: they never match, so the
message is never built from them. -/
def Ident.text : Ident → String
  | Ident.str s => s
  | Ident.vol r => r.id
  | Ident.pynone => "None"

/-- The inner `check_identity_method` predicate of `_get_matched_resources`. -/
def check_identity_method (identity_paths : List IdentityPath) (identity : Ident)
    (resource : Resource) : Bool :=
  identMatches identity (identity_paths.map (evalPath resource))

/-- `_get_matched_resources(resource_list, identity, identity_paths=None)`:
filter the resources whose identity-path values contain the identity. -/
def _get_matched_resources (resource_list : ResourceList) (identity : Ident)
    (identity_paths : Option (List IdentityPath)) : List Resource :=
  let paths := identity_paths.getD defaultIdentityPaths
  resource_list.items.filter (check_identity_method paths identity)

/-- `get_resource`: one match returns it, several matches fail the module
(`Except.error` is the fail_json message), no match returns None. -/
def get_resource (resource_list : ResourceList) (identity : Ident)
    (identity_paths : Option (List IdentityPath)) : Except String (Option Resource) :=
  match _get_matched_resources resource_list identity identity_paths with
  | [r] => Except.ok (some r)
  | [] => Except.ok none
  | _ => Except.error ("found more resources of type " ++ resource_list.id ++
      " for \x27" ++ identity.text ++ "\x27")

/-- `get_resource_id`: the id of the resolved resource, None when unresolved. -/
def get_resource_id (resource_list : ResourceList) (identity : Ident)
    (identity_paths : Option (List IdentityPath)) : Except String (Option String) :=
  match get_resource resource_list identity identity_paths with
  | Except.ok r => Except.ok (r.map Resource.id)
  | Except.error m => Except.error m

/-- The matching step as worded by the specification: the sublist of resources
whose id field equals the identity or whose properties.name field equals the
identity, in list order. -/
def matched_resources_spec (resource_list : ResourceList) (identity : String) : List Resource :=
  resource_list.items.filter (fun r =>
    decide (r.id = identity ∨ r.properties.name = identity))

/-- Python truthiness of an optional string parameter (None and the empty
string are falsy). -/
def truthy : Option String → Bool
  | none => false
  | some s => s ≠ ""

/-- The keyword arguments the modules hand to `sdk.Configuration(**conf)`,
together with the constructor defaults for the fields they leave unset
(username/password/token/host default to None in the model; server_index
defaults to 0 in the SDK and the modules overwrite it with None whenever they
set a host). -/
structure SdkConfig where
  username : Option String := none
  password : Option String := none
  token : Option String := none
  host : Option String := none
  server_index : Option Nat := some 0
deriving DecidableEq, Repr

/-- `get_sdk_config(module, sdk)`: token takes precedence over username and
password; a given api_url sets host and clears server_index.  The function is
textually identical in both modules. -/
def get_sdk_config (username password token api_url : Option String) : SdkConfig :=
  let conf : SdkConfig :=
    if token.isSome then
      { token := token }
    else
      { username := username, password := password }
  if api_url.isSome then
    { conf with host := api_url, server_index := none }
  else
    conf

/-- Python %-formatting restricted to the fragment the module exercises:
replace the first `%d` with the decimal rendering of the number.  Names with
other printf specifiers are outside the scope of the claims over this model. -/
def formatDChars : List Char → Nat → List Char
  | [], _ => []
  | [c], _ => [c]
  | c1 :: c2 :: rest, n =>
    if c1 = '%' ∧ c2 = 'd' then (Nat.repr n).data ++ rest
    else c1 :: formatDChars (c2 :: rest) n

/-- Whether the string holds a `%d` conversion specifier; models the
`name % 0` probe that raises TypeError (not all arguments converted) exactly
when no specifier consumes the argument. -/
def hasSpecChars : List Char → Bool
  | [] => false
  | [_] => false
  | c1 :: c2 :: rest => (decide (c1 = '%') && decide (c2 = 'd')) || hasSpecChars (c2 :: rest)

/-- String-level wrapper of `formatDChars`. -/
def formatD (s : String) (n : Nat) : String :=
  String.mk (formatDChars s.data n)

/-- Name enumeration of create_volume (the count > 1 branch appends `%d`
when the name has no specifier, then formats the numbers
`xrange(1, 1 + count)`; CPython iterates this small-int set in ascending
order, so the available numbers are 1..count and `[:count]` keeps them all). -/
def build_names (name : String) (count : Nat) : List String :=
  if 1 < count then
    let fmt := if hasSpecChars name.data then name else name ++ "%d"
    ((List.range' 1 count).take count).map (formatD fmt)
  else [name]

/-- `_get_request_id` request-id character class `[-A-Fa-f0-9]`. -/
def isRequestIdChar (c : Char) : Bool :=
  decide (c = '-') || (decide ('A' ≤ c) && decide (c ≤ 'F')) ||
    (decide ('a' ≤ c) && decide (c ≤ 'f')) || (decide ('0' ≤ c) && decide (c ≤ '9'))

/-- Literal match of the `/requests/` prefix of the request-id pattern. -/
def stripRequests : List Char → Option (List Char)
  | '/' :: 'r' :: 'e' :: 'q' :: 'u' :: 'e' :: 's' :: 't' :: 's' :: '/' :: rest => some rest
  | _ => none

/-- After `/requests/`, a nonempty greedy run of id characters followed by a
slash (the character class excludes the slash, so the greedy run needs no
backtracking). -/
def requestIdAt (cs : List Char) : Option (List Char) :=
  let run := cs.takeWhile isRequestIdChar
  if run.isEmpty then none
  else
    match cs.drop run.length with
    | '/' :: _ => some run
    | _ => none

/-- `re.search` of the pattern at every start position, left to right. -/
def searchRequestId : List Char → Option (List Char)
  | [] => none
  | c :: rest =>
    match stripRequests (c :: rest) with
    | some after =>
      match requestIdAt after with
      | some run => some run
      | none => searchRequestId rest
    | none => searchRequestId rest

/-- `_get_request_id(headers)`: extract the request id from the Location
header value, raising when the pattern does not match.  (The source formats
that exception message through `headers[\x27location\x27]` on a string, which
itself raises TypeError; either way an exception propagates, and no claim
depends on its text.) -/
def _get_request_id (headers : String) : Except String String :=
  match searchRequestId headers.data with
  | some run => Except.ok (String.mk run)
  | none => Except.error ("Failed to extract request ID from response header location: " ++ headers)

/-- One SDK endpoint invocation as recorded in the call trace, with the
arguments that distinguish it. -/
inductive SdkCall where
  | datacentersGet
  | volumesGet (datacenterId : Option String)
  | volumesFindById (datacenterId : String) (volumeId : String)
  | volumesPost (datacenterId : String) (name : Option String)
  | volumesPut (datacenterId : String) (volumeId : Option String) (name : String)
  | volumesDelete (datacenterId : Option String) (volumeId : String)
  | serversGet (datacenterId : String)
  | serversVolumesPost (datacenterId : String) (serverId : Option String) (volumeId : String)
  | waitForCompletion (requestId : String) (timeout : Int)
  | clustersGet
  | clusterBackupsGet (clusterId : Option String)
  | clustersBackupsGet
deriving DecidableEq, Repr

/-- Values stored in result dicts: booleans, strings, optional strings, lists
of ids, lists of volume dicts (to_dict of a volume is modelled as the resource
record itself) and lists of backup dicts. -/
inductive RVal where
  | b (v : Bool)
  | s (v : String)
  | os (v : Option String)
  | ls (v : List String)
  | lr (v : List Resource)
  | lbd (v : List (List (String × String)))
deriving DecidableEq, Repr

/-- A result dict, in insertion order. -/
abbrev ResDict := List (String × RVal)

/-- How a module run terminates: a successful exit_json with a result dict or
a fail_json with a message. -/
inductive ModuleExit where
  | success (result : ResDict)
  | failure (msg : String)
deriving DecidableEq, Repr

/-- Outcome of a fragment of module code: a value, a SystemExit thrown by
exit_json/fail_json (not caught by `except Exception`), or a propagating
Python exception carrying its text. -/
inductive StepResult (α : Type) where
  | ok (a : α)
  | exit (e : ModuleExit)
  | exn (msg : String)
deriving DecidableEq, Repr

/-- A module computation: its step result paired with the trace of SDK calls
it performed (in order). -/
abbrev Res (α : Type) := StepResult α × List SdkCall

/-- Sequencing of module code: SystemExit and exceptions short-circuit, SDK
call traces concatenate. -/
def resBind {α β : Type} (x : Res α) (f : α → Res β) : Res β :=
  match x with
  | (StepResult.ok a, t) => ((f a).1, t ++ (f a).2)
  | (StepResult.exit e, t) => (StepResult.exit e, t)
  | (StepResult.exn m, t) => (StepResult.exn m, t)

instance : Monad Res where
  pure a := (StepResult.ok a, [])
  bind := resBind

/-- Performing one SDK call: the call is recorded in the trace; an SDK error
becomes a propagating exception. -/
def sdkCall {α : Type} (c : SdkCall) (r : Except String α) : Res α :=
  match r with
  | Except.ok a => (StepResult.ok a, [c])
  | Except.error m => (StepResult.exn m, [c])

/-- `module.fail_json(msg=...)`: terminates the module run. -/
def failJson {α : Type} (msg : String) : Res α :=
  (StepResult.exit (ModuleExit.failure msg), [])

/-- `module.exit_json(**result)`: terminates the module run successfully. -/
def exitJson {α : Type} (r : ResDict) : Res α :=
  (StepResult.exit (ModuleExit.success r), [])

/-- Raising (or rethrowing) a Python exception from pure code. -/
def raiseExc {α : Type} (r : Except String α) : Res α :=
  match r with
  | Except.ok a => (StepResult.ok a, [])
  | Except.error m => (StepResult.exn m, [])

/-- `try: ... except Exception as e: handler` — exceptions are handed to the
handler, SystemExit and normal values pass through; the trace up to the
exception is kept. -/
def catchExc {α : Type} (x : Res α) (h : String → Res α) : Res α :=
  match x with
  | (StepResult.exn m, t) => ((h m).1, t ++ (h m).2)
  | y => y

/-- `get_resource` lifted into a module run: the ambiguity error is a
fail_json. -/
def get_resourceR (resource_list : ResourceList) (identity : Ident)
    (identity_paths : Option (List IdentityPath)) : Res (Option Resource) :=
  match get_resource resource_list identity identity_paths with
  | Except.ok r => (StepResult.ok r, [])
  | Except.error m => (StepResult.exit (ModuleExit.failure m), [])

/-- `get_resource_id` lifted into a module run. -/
def get_resource_idR (resource_list : ResourceList) (identity : Ident)
    (identity_paths : Option (List IdentityPath)) : Res (Option String) :=
  match get_resource resource_list identity identity_paths with
  | Except.ok r => (StepResult.ok (r.map Resource.id), [])
  | Except.error m => (StepResult.exit (ModuleExit.failure m), [])

/-- Behaviour of the opaque vendor SDK: the outcome of each endpoint as a
function of the arguments the module passes; `Except.error` is a raised
ApiException (or any exception) with the given text. -/
structure SdkEnv where
  datacenters_get : Except String ResourceList
  volumes_get : Option String → Except String ResourceList
  volumes_find_by_id : String → String → Except String Resource
  volumes_post : String → Option String → Except String (Resource × String)
  volumes_put : String → Option String → String → Except String (Resource × String)
  volumes_delete : Option String → String → Except String Unit
  servers_get : String → Except String ResourceList
  servers_volumes_post : String → Option String → String → Except String Resource
  wait_for_completion : String → Int → Except String Unit

/-- The volume module parameters that drive the control flow.  The remaining
options (size, bus, image, ssh_keys, ...) are marshalled verbatim into the
request body of the create/update call and never branch the module logic, so
they live inside the opaque SDK behaviour. -/
structure VolumeParams where
  datacenter : Option String := none
  server : Option String := none
  name : Option String := none
  count : Nat := 1
  instance_ids : List String := []
  api_url : Option String := none
  username : Option String := none
  password : Option String := none
  token : Option String := none
  wait : Bool := true
  wait_timeout : Int := 600
  state : String := "present"
  check_mode : Bool := false

/-- `_create_volume`: check mode exits early; otherwise the volume is posted
and, with wait set, the request id extracted from the Location header is
polled; every exception inside becomes a fail_json with its text. -/
def _create_volume (env : SdkEnv) (p : VolumeParams) (datacenter : String)
    (name : Option String) : Res Resource :=
  if p.check_mode then exitJson ([("changed", RVal.b true)])
  else
    catchExc
      (do
        let vr ← sdkCall (SdkCall.volumesPost datacenter name) (env.volumes_post datacenter name)
        if p.wait then do
          let request_id ← raiseExc (_get_request_id vr.2)
          let _ ← sdkCall (SdkCall.waitForCompletion request_id p.wait_timeout)
            (env.wait_for_completion request_id p.wait_timeout)
          pure vr.1
        else pure vr.1)
      (fun m => failJson ("failed to create the volume: " ++ m))

/-- `_update_volume`: the source evaluates `volume.name` when the name
parameter is missing, but the SDK Volume model has no `name` attribute, so
that path raises AttributeError; it then rebinds `volume` to a fresh
`Volume(properties=...)` whose id is None and sends that None as volume_id. -/
def _update_volume (env : SdkEnv) (p : VolumeParams) (datacenter : String)
    (volume : Resource) : Res Resource :=
  if p.check_mode then exitJson ([("changed", RVal.b true)])
  else
    catchExc
      (do
        let nm ← (match p.name with
          | some nm => pure nm
          | none => raiseExc (Except.error ("Volume object has no attribute name")))
        let vr ← sdkCall (SdkCall.volumesPut datacenter none nm)
          (env.volumes_put datacenter none nm)
        if p.wait then do
          let request_id ← raiseExc (_get_request_id vr.2)
          let _ ← sdkCall (SdkCall.waitForCompletion request_id p.wait_timeout)
            (env.wait_for_completion request_id p.wait_timeout)
          pure vr.1
        else pure vr.1)
      (fun m => failJson ("failed to update the volume: " ++ m))

/-- `_delete_volume`: check mode exits early; an SDK exception becomes a
fail_json. -/
def _delete_volume (env : SdkEnv) (p : VolumeParams) (datacenter : Option String)
    (volume : String) : Res Unit :=
  if p.check_mode then exitJson ([("changed", RVal.b true)])
  else
    catchExc
      (sdkCall (SdkCall.volumesDelete datacenter volume) (env.volumes_delete datacenter volume))
      (fun m => failJson ("failed to remove the volume: " ++ m))

/-- `_attach_volume`: only with a truthy server parameter; the lookup failure
leaves server_id None (passed along); an SDK exception becomes a fail_json. -/
def _attach_volume (env : SdkEnv) (p : VolumeParams) (datacenter : String)
    (volume_id : String) : Res (Option Resource) :=
  if truthy p.server then do
    let server_list ← sdkCall (SdkCall.serversGet datacenter) (env.servers_get datacenter)
    let server_id ← get_resource_idR server_list (optIdent p.server) none
    catchExc
      (do
        let r ← sdkCall (SdkCall.serversVolumesPost datacenter server_id volume_id)
          (env.servers_volumes_post datacenter server_id volume_id)
        pure (some r))
      (fun m => failJson ("failed to attach volume: " ++ m))
  else pure none

/-- The name-enumeration step of create_volume over the optional name
parameter.  A missing name with count > 1 raises (the `None % 0` probe raises
a TypeError that the not-all-arguments test does not recognise, and the
fallback fail_json path itself raises on `e.message`); a missing name with
count 1 flows through as the single None name. -/
def create_names : Option String → Nat → Res (List (Option String))
  | some nm, count => (StepResult.ok ((build_names nm count).map some), [])
  | none, count =>
    if 1 < count then
      (StepResult.exn ("TypeError object has no attribute message"), [])
    else (StepResult.ok [none], [])

/-- The per-name loop of create_volume: reuse an existing volume (find it by
id and attach) or create and attach a new one; changed records whether any
volume was created. -/
def create_loop (env : SdkEnv) (p : VolumeParams) (dcid : String)
    (volume_list : ResourceList) :
    List (Option String) → Res (List Resource × List String × Bool)
  | [] => pure ([], [], false)
  | name :: rest => do
    let existing_volume_id ← get_resource_idR volume_list (optIdent name) none
    match existing_volume_id with
    | some vid => do
      let create_response ← sdkCall (SdkCall.volumesFindById dcid vid)
        (env.volumes_find_by_id dcid vid)
      let _ ← _attach_volume env p dcid vid
      let rest_result ← create_loop env p dcid volume_list rest
      pure (create_response :: rest_result.1, vid :: rest_result.2.1, rest_result.2.2)
    | none => do
      let create_response ← _create_volume env p dcid name
      let _ ← _attach_volume env p dcid create_response.id
      let rest_result ← create_loop env p dcid volume_list rest
      pure (create_response :: rest_result.1, create_response.id :: rest_result.2.1, true)

/-- `create_volume(module, client)`. -/
def create_volume (env : SdkEnv) (p : VolumeParams) : Res ResDict := do
  let datacenter_list ← sdkCall SdkCall.datacentersGet env.datacenters_get
  let datacenter_id ← get_resource_idR datacenter_list (optIdent p.datacenter) none
  match datacenter_id with
  | none => failJson ("datacenter could not be found.")
  | some dcid => do
    let names ← create_names p.name p.count
    let volume_list ← sdkCall (SdkCall.volumesGet (some dcid)) (env.volumes_get (some dcid))
    let loop_result ← create_loop env p dcid volume_list names
    pure [("changed", RVal.b loop_result.2.2), ("failed", RVal.b false),
      ("volumes", RVal.lr loop_result.1), ("action", RVal.s ("create")),
      ("instance_ids", RVal.ls loop_result.2.1)]

/-- The early parameter validation of update_volume (source lines 532-537). -/
def update_precheck (p : VolumeParams) : Res Unit :=
  match p.name with
  | none =>
    if p.instance_ids.length < 1 then
      failJson ("instance_ids should be a list of volume ids or names, aborting")
    else pure ()
  | some _ =>
    if 1 < p.instance_ids.length then
      failJson ("when renaming, instance_ids can only have one id at most")
    else pure ()

/-- The fail-early pass of update_volume: resolve every instance identifier,
failing on the first that matches nothing. -/
def check_instances (volume_list : ResourceList) : List String → Res (List Resource)
  | [] => pure []
  | i :: rest => do
    let v ← get_resourceR volume_list (Ident.str i) none
    match v with
    | none => failJson ("Volume \x27" ++ i ++ "\x27 not found.")
    | some vol => do
      let vs ← check_instances volume_list rest
      pure (vol :: vs)

/-- The update loop of update_volume.  Note that the second `get_resource`
call receives the checked Volume object itself as the identity, which matches
nothing, so the update branch is dead in the source; the embedding keeps that
behaviour.  (The fail branch is only reachable with a set name, whose value
the message interpolates; getD is never exercised with its default.) -/
def update_loop (env : SdkEnv) (p : VolumeParams) (dcid : String)
    (volume_list : ResourceList) : List Resource → Res (Bool × List Resource)
  | [] => pure (false, [])
  | inst :: rest => do
    let existing_volume_by_name ← (match p.name with
      | none => pure none
      | some nm => get_resource_idR volume_list (Ident.str nm) none)
    match existing_volume_by_name with
    | some _ => failJson ("A volume with the name " ++ p.name.getD ("None") ++ " already exists.")
    | none => do
      let volume ← get_resourceR volume_list (Ident.vol inst) none
      match volume with
      | some v => do
        let update_response ← _update_volume env p dcid v
        let rest_result ← update_loop env p dcid volume_list rest
        pure (true, update_response :: rest_result.2)
      | none => update_loop env p dcid volume_list rest

/-- `update_volume(module, client)`. -/
def update_volume (env : SdkEnv) (p : VolumeParams) : Res ResDict := do
  let _ ← update_precheck p
  let datacenter_list ← sdkCall SdkCall.datacentersGet env.datacenters_get
  let datacenter_id ← get_resource_idR datacenter_list (optIdent p.datacenter) none
  match datacenter_id with
  | none => failJson ("datacenter could not be found.")
  | some dcid => do
    let volume_list ← sdkCall (SdkCall.volumesGet (some dcid)) (env.volumes_get (some dcid))
    let checked_instances ← check_instances volume_list p.instance_ids
    let loop_result ← update_loop env p dcid volume_list checked_instances
    pure [("changed", RVal.b loop_result.1), ("failed", RVal.b false),
      ("volume", RVal.lr loop_result.2), ("action", RVal.s ("update"))]

/-- The per-identifier loop of delete_volume; volume_id is rebound by every
lookup, so the returned id is the last lookup result. -/
def delete_loop (env : SdkEnv) (p : VolumeParams) (datacenter_id : Option String)
    (volumes : ResourceList) :
    List String → Bool → Option String → Res (Bool × Option String)
  | [], changed, volume_id => pure (changed, volume_id)
  | n :: rest, changed, _ => do
    let volume_id ← get_resource_idR volumes (Ident.str n) none
    match volume_id with
    | some vid => do
      let _ ← _delete_volume env p datacenter_id vid
      delete_loop env p datacenter_id volumes rest true volume_id
    | none => delete_loop env p datacenter_id volumes rest changed volume_id

/-- `delete_volume(module, client)`.  Unlike create and update, the missing
datacenter id is not checked: a None datacenter id is passed to the volumes
listing unchanged. -/
def delete_volume (env : SdkEnv) (p : VolumeParams) : Res ResDict := do
  if p.instance_ids.length < 1 then
    failJson ("instance_ids should be a list of volume ids or names, aborting")
  else do
    let datacenter_list ← sdkCall SdkCall.datacentersGet env.datacenters_get
    let datacenter_id ← get_resource_idR datacenter_list (optIdent p.datacenter) none
    let volumes ← sdkCall (SdkCall.volumesGet datacenter_id) (env.volumes_get datacenter_id)
    let loop_result ← delete_loop env p datacenter_id volumes p.instance_ids false none
    pure [("action", RVal.s ("delete")), ("changed", RVal.b loop_result.1),
      ("id", RVal.os loop_result.2)]

/-- The valid states of the volume module. -/
def STATES : List String := ["present", "absent", "update"]

/-- `check_required_arguments(module, state, object_name)` of the volume
module: token or username & password, then the options required for the
state (datacenter for every state, name for present), in OPTIONS order. -/
def check_required_arguments_volume (p : VolumeParams) : Option String :=
  if !truthy p.token && !(truthy p.username && truthy p.password) then
    some ("Token or username & password are required for Volume state " ++ p.state)
  else if STATES.contains p.state && !truthy p.datacenter then
    some ("datacenter parameter is required for Volume state " ++ p.state)
  else if decide (p.state = "present") && !truthy p.name then
    some ("name parameter is required for Volume state " ++ p.state)
  else none

/-- The state dispatch inside main's try block; None models a state outside
the AnsibleModule choices, with which main would fall through and exit_json
would never run (the argument parser rejects such states before main's body,
so the None case is unreachable in a real run). -/
def volume_try_body (env : SdkEnv) (p : VolumeParams) : Option (Res ResDict) :=
  if p.state = "absent" then some (delete_volume env p)
  else if p.state = "present" then some (create_volume env p)
  else if p.state = "update" then some (update_volume env p)
  else none

/-- `main()` of the volume module: the required-argument check, then the state
operation inside try/except; a normal result is exit_json-ed, a SystemExit
passes through, an exception becomes the fail_json of main's except clause. -/
def volume_main (env : SdkEnv) (p : VolumeParams) :
    Option (StepResult ResDict × List SdkCall) :=
  match check_required_arguments_volume p with
  | some msg => some (StepResult.exit (ModuleExit.failure msg), [])
  | none =>
    (volume_try_body env p).map (fun x =>
      match x with
      | (StepResult.ok r, t) => (StepResult.exit (ModuleExit.success r), t)
      | (StepResult.exit e, t) => (StepResult.exit e, t)
      | (StepResult.exn m, t) =>
        (StepResult.exit (ModuleExit.failure
          ("failed to set Volume state " ++ p.state ++ ": " ++ m)), t))

/-- A postgres cluster backup model; representative fields of the vendor
record. -/
structure Backup where
  id : String
  cluster_id : String
deriving DecidableEq, Repr

/-- The vendor `to_dict` serialisation of a backup model. -/
def Backup.to_dict (b : Backup) : List (String × String) :=
  [("id", b.id), ("cluster_id", b.cluster_id)]

/-- Behaviour of the opaque dbaas-postgres SDK. -/
structure PgEnv where
  clusters_get : Except String ResourceList
  cluster_backups_get : Option String → Except String (List Backup)
  clusters_backups_get : Except String (List Backup)

/-- Parameters of postgres_backup_info. -/
structure PgParams where
  postgres_cluster : Option String := none
  api_url : Option String := none
  username : Option String := none
  password : Option String := none
  token : Option String := none

/-- `check_required_arguments(module, object_name)` of postgres_backup_info:
only the token / username & password check (no option lists a required
state). -/
def check_required_arguments_pg (p : PgParams) : Option String :=
  if !truthy p.token && !(truthy p.username && truthy p.password) then
    some ("Token or username & password are required for Postgres Cluster Backups")
  else none

/-- The try block of postgres_backup_info's main: with a truthy cluster
parameter resolve it (by id or display_name) and list its backups, otherwise
list the backups of all clusters; the result dict maps `result` to one
to_dict per backup. -/
def postgres_try (env : PgEnv) (p : PgParams) : Res ResDict := do
  let backups ←
    if truthy p.postgres_cluster then do
      let cluster_list ← sdkCall SdkCall.clustersGet env.clusters_get
      let postgres_cluster_id ← get_resource_idR cluster_list (optIdent p.postgres_cluster)
        (some [IdentityPath.id, IdentityPath.propertiesDisplayName])
      sdkCall (SdkCall.clusterBackupsGet postgres_cluster_id)
        (env.cluster_backups_get postgres_cluster_id)
    else
      sdkCall SdkCall.clustersBackupsGet env.clusters_backups_get
  pure [("result", RVal.lbd (backups.map Backup.to_dict))]

/-- `main()` of postgres_backup_info. -/
def postgres_main (env : PgEnv) (p : PgParams) : StepResult ResDict × List SdkCall :=
  match check_required_arguments_pg p with
  | some msg => (StepResult.exit (ModuleExit.failure msg), [])
  | none =>
    match postgres_try env p with
    | (StepResult.ok r, t) => (StepResult.exit (ModuleExit.success r), t)
    | (StepResult.exit e, t) => (StepResult.exit e, t)
    | (StepResult.exn m, t) =>
      (StepResult.exit (ModuleExit.failure
        ("failed to retrieve Postgres Cluster Backups: " ++ m)), t)

/-- Count of a given SDK call in a trace. -/
def countCall (k : SdkCall) (t : List SdkCall) : Nat :=
  t.countP (fun c => decide (c = k))

/-- Recogniser for volume delete calls. -/
def isDeleteCall : SdkCall → Bool
  | SdkCall.volumesDelete _ _ => true
  | _ => false


/-- An empty volumes listing. -/
def rlEmpty : ResourceList := ⟨"volumes", []⟩

/-- A volumes listing with two distinct volumes sharing the name dup. -/
def rlDup : ResourceList :=
  ⟨"volumes", [⟨"v1", ⟨"dup", ""⟩⟩, ⟨"v2", ⟨"dup", ""⟩⟩]⟩

/-- An SDK behaviour none of whose endpoints is ever reached. -/
def envNoop : SdkEnv :=
  { datacenters_get := Except.error ("unreached")
    volumes_get := fun _ => Except.error ("unreached")
    volumes_find_by_id := fun _ _ => Except.error ("unreached")
    volumes_post := fun _ _ => Except.error ("unreached")
    volumes_put := fun _ _ _ => Except.error ("unreached")
    volumes_delete := fun _ _ => Except.error ("unreached")
    servers_get := fun _ => Except.error ("unreached")
    servers_volumes_post := fun _ _ _ => Except.error ("unreached")
    wait_for_completion := fun _ _ => Except.error ("unreached") }

/-- Update parameters carrying a rename together with two instance ids. -/
def pC10a : VolumeParams :=
  { name := some ("newname"), instance_ids := [("a"), ("b")], state := "update",
    datacenter := some ("dc1"), token := some ("tok") }

/-- Update parameters carrying neither a name nor instance ids. -/
def pC10b : VolumeParams :=
  { name := none, instance_ids := [], state := "update",
    datacenter := some ("dc1"), token := some ("tok") }

/-- A volume resource used across the concrete runs. -/
def resA : Resource := ⟨("v1"), ⟨("n1"), ("")⟩⟩

/-- SDK behaviour whose create and update calls succeed with a Location
header carrying request id abc. -/
def envOkPost : SdkEnv :=
  { datacenters_get := Except.ok ⟨("datacenters"), []⟩
    volumes_get := fun _ => Except.ok ⟨("volumes"), []⟩
    volumes_find_by_id := fun _ _ => Except.ok resA
    volumes_post := fun _ _ => Except.ok (resA, ("/requests/abc/status"))
    volumes_put := fun _ _ _ => Except.ok (resA, ("/requests/abc/status"))
    volumes_delete := fun _ _ => Except.ok ()
    servers_get := fun _ => Except.ok ⟨("servers"), []⟩
    servers_volumes_post := fun _ _ _ => Except.ok resA
    wait_for_completion := fun _ _ => Except.ok () }

/-- Parameters for a waiting create/update run. -/
def pC5 : VolumeParams :=
  { name := some ("n2"), datacenter := some ("dc1"), token := some ("tok"),
    wait := true, wait_timeout := 600, check_mode := false }

/-- Absent-state parameters whose run hits the failing SDK of envNoop. -/
def pC4v : VolumeParams :=
  { state := "absent", instance_ids := [("v")], datacenter := some ("dc1"),
    token := some ("tok") }

/-- A dbaas-postgres SDK behaviour whose endpoints all raise. -/
def envPgErr : PgEnv :=
  { clusters_get := Except.error ("pgboom")
    cluster_backups_get := fun _ => Except.error ("pgboom")
    clusters_backups_get := Except.error ("pgboom") }

/-- Parameters for a postgres run listing the backups of all clusters. -/
def pPg4 : PgParams := { token := some ("tok") }

/-- A module computation that never terminates through a check-mode
exit_json: its step result is not an exit carrying a success. -/
def successFree {α : Type} (x : Res α) : Prop :=
  ∀ r, x.1 ≠ StepResult.exit (ModuleExit.success r)

/-- SDK behaviour with one datacenter dc1 and one volume v1. -/
def envDel : SdkEnv :=
  { datacenters_get := Except.ok ⟨("datacenters"), [⟨("dc1"), ⟨("DC One"), ("")⟩⟩]⟩
    volumes_get := fun _ => Except.ok ⟨("volumes"), [resA]⟩
    volumes_find_by_id := fun _ _ => Except.ok resA
    volumes_post := fun _ _ => Except.ok (resA, ("/requests/abc/status"))
    volumes_put := fun _ _ _ => Except.ok (resA, ("/requests/abc/status"))
    volumes_delete := fun _ _ => Except.ok ()
    servers_get := fun _ => Except.ok ⟨("servers"), []⟩
    servers_volumes_post := fun _ _ _ => Except.ok resA
    wait_for_completion := fun _ _ => Except.ok () }

/-- A check-mode absent-state run targeting the existing volume v1. -/
def pC6cm : VolumeParams :=
  { state := "absent", instance_ids := [("v1")], datacenter := some ("dc1"),
    token := some ("tok"), check_mode := true }

/-- A normal absent-state run whose identifier matches no volume. -/
def pC6w : VolumeParams :=
  { state := "absent", instance_ids := [("nosuch")], datacenter := some ("dc1"),
    token := some ("tok"), check_mode := false }

/-- A dbaas-postgres SDK behaviour listing one backup over all clusters. -/
def envPgOk : PgEnv :=
  { clusters_get := Except.ok ⟨("clusters"), []⟩
    cluster_backups_get := fun _ => Except.ok []
    clusters_backups_get := Except.ok [⟨("b1"), ("c1")⟩] }

/-- An absent-state run passing the volume v1 identifier twice. -/
def pC7 : VolumeParams :=
  { state := "absent", instance_ids := [("v1"), ("v1")], datacenter := some ("dc1"),
    token := some ("tok") }

/-- SDK behaviour whose delete and create calls raise. -/
def envFail : SdkEnv :=
  { datacenters_get := Except.ok ⟨("datacenters"), [⟨("dc1"), ⟨("DC One"), ("")⟩⟩]⟩
    volumes_get := fun _ => Except.ok ⟨("volumes"), [resA]⟩
    volumes_find_by_id := fun _ _ => Except.ok resA
    volumes_post := fun _ _ => Except.error ("postboom")
    volumes_put := fun _ _ _ => Except.ok (resA, ("/requests/abc/status"))
    volumes_delete := fun _ _ => Except.error ("delboom")
    servers_get := fun _ => Except.ok ⟨("servers"), []⟩
    servers_volumes_post := fun _ _ _ => Except.ok resA
    wait_for_completion := fun _ _ => Except.ok () }

theorem res_bind_def {α β : Type} (x : Res α) (f : α → Res β) :
    x >>= f = resBind x f := rfl

theorem res_pure_def {α : Type} (a : α) :
    (pure a : Res α) = (StepResult.ok a, []) := rfl

theorem resBind_eq_ok {α β : Type} {x : Res α} {f : α → Res β} {b : β} {t : List SdkCall}
    (h : resBind x f = (StepResult.ok b, t)) :
    ∃ a t1, x = (StepResult.ok a, t1) ∧ (f a).1 = StepResult.ok b ∧ t = t1 ++ (f a).2 := by
  obtain ⟨r, t0⟩ := x
  cases r with
  | ok a =>
    simp only [resBind, Prod.mk.injEq] at h
    exact ⟨a, t0, rfl, h.1, h.2.symm⟩
  | exit e => simp [resBind] at h
  | exn m => simp [resBind] at h

/-- Claim C1: with more than one matching resource, get_resource fails the
module with an error message instead of returning a resource. -/
theorem claim_C1 (rl : ResourceList) (identity : Ident)
    (paths : Option (List IdentityPath))
    (h : 1 < (_get_matched_resources rl identity paths).length) :
    ∃ msg, get_resource rl identity paths = Except.error msg := by
  unfold get_resource
  rcases hm : _get_matched_resources rl identity paths with _ | ⟨a, _ | ⟨b, l⟩⟩
  · rw [hm] at h; simp at h
  · rw [hm] at h; simp at h
  · exact ⟨_, rfl⟩

theorem claim_C1_witness :
    1 < (_get_matched_resources rlDup (Ident.str ("dup")) none).length ∧
    ∃ msg, get_resource rlDup (Ident.str ("dup")) none = Except.error msg :=
  ⟨by decide, claim_C1 rlDup (Ident.str ("dup")) none (by decide)⟩

/-- Claim C2 counterexample: with zero matches the resolution helpers do not
fail; they return None. -/
theorem claim_C2_counterexample :
    _get_matched_resources rlEmpty (Ident.str ("missing")) none = [] ∧
    get_resource rlEmpty (Ident.str ("missing")) none = Except.ok none ∧
    (∀ msg, get_resource rlEmpty (Ident.str ("missing")) none ≠ Except.error msg) ∧
    get_resource_id rlEmpty (Ident.str ("missing")) none = Except.ok none := by
  refine ⟨by decide, by decide, ?_, by decide⟩
  intro msg h
  rw [show get_resource rlEmpty (Ident.str ("missing")) none = Except.ok none from by decide] at h
  simp at h

/-- Claim C2 (amended): with zero matches get_resource and get_resource_id
return None without failing; the callers that need the resource test the None
and fail with their own message. -/
theorem claim_C2 (rl : ResourceList) (identity : Ident)
    (paths : Option (List IdentityPath))
    (h : _get_matched_resources rl identity paths = []) :
    get_resource rl identity paths = Except.ok none ∧
    get_resource_id rl identity paths = Except.ok none := by
  have h1 : get_resource rl identity paths = Except.ok none := by
    unfold get_resource
    rw [h]
  exact ⟨h1, by unfold get_resource_id; rw [h1]; rfl⟩

theorem claim_C2_witness :
    _get_matched_resources rlEmpty (Ident.str ("absent-volume")) none = [] ∧
    get_resource rlEmpty (Ident.str ("absent-volume")) none = Except.ok none ∧
    get_resource_id rlEmpty (Ident.str ("absent-volume")) none = Except.ok none := by
  refine ⟨by decide, ?_⟩
  have h := claim_C2 rlEmpty (Ident.str ("absent-volume")) none (by decide)
  exact h

theorem contains_pair_eq (a b x : String) :
    [a, b].contains x = decide (a = x ∨ b = x) := by
  by_cases h1 : a = x <;> by_cases h2 : b = x <;>
    simp [List.contains_eq_any_beq, h1, h2]
  exact ⟨fun h => h1 h.symm, fun h => h2 h.symm⟩

/-- Claim C3: with the default identity paths the matching step returns
exactly the sublist of resources whose id or properties.name equals the
identity, in list order. -/
theorem claim_C3 (rl : ResourceList) (identity : String) :
    _get_matched_resources rl (Ident.str identity) none = matched_resources_spec rl identity := by
  unfold _get_matched_resources matched_resources_spec
  apply List.filter_congr
  intro r _
  simp only [check_identity_method, identMatches, Option.getD, defaultIdentityPaths,
    List.map, evalPath]
  exact contains_pair_eq r.id r.properties.name identity

/-- Claim C8: get_sdk_config gives the token precedence (a set token yields a
configuration with only the token, no username or password), a missing token
yields one carrying the username and password, and api_url, when set, becomes
the host (clearing server_index) in both cases. -/
theorem claim_C8 (u pw : Option String) (t : String) (url : Option String) :
    get_sdk_config u pw (some t) url =
      { username := none, password := none, token := some t, host := url,
        server_index := if url.isSome then none else some 0 } ∧
    get_sdk_config u pw none url =
      { username := u, password := pw, token := none, host := url,
        server_index := if url.isSome then none else some 0 } := by
  cases url <;> exact ⟨rfl, rfl⟩

theorem string_append_eq (s t : String) : s ++ t = String.mk (s.data ++ t.data) := by
  cases s; cases t; rfl

theorem formatDChars_no_spec (n : Nat) :
    ∀ l : List Char, '%' ∉ l →
      formatDChars (l ++ '%' :: 'd' :: []) n = l ++ (Nat.repr n).data := by
  intro l
  induction l with
  | nil => intro _; simp [formatDChars]
  | cons c l ih =>
    intro h
    have hc : c ≠ '%' := fun hh => h (by simp [hh])
    have hl : '%' ∉ l := fun hh => h (List.mem_cons_of_mem _ hh)
    cases l with
    | nil =>
      simp [formatDChars, hc]
    | cons c2 l2 =>
      have ihh := ih hl
      have hcond2 : ¬(c = '%' ∧ c2 = 'd') := fun hh => hc hh.1
      simp only [List.cons_append] at ihh ⊢
      rw [formatDChars, if_neg hcond2, ihh]

theorem hasSpecChars_no_percent : ∀ l : List Char, '%' ∉ l → hasSpecChars l = false := by
  intro l
  induction l with
  | nil => intro _; rfl
  | cons c l ih =>
    intro h
    have hc : c ≠ '%' := fun hh => h (by simp [hh])
    have hl : '%' ∉ l := fun hh => h (List.mem_cons_of_mem _ hh)
    cases l with
    | nil => rfl
    | cons c2 l2 =>
      rw [hasSpecChars]
      simp [hc, ih hl]

/-- Claim C9: with count 1 the volume name list is exactly the supplied name;
with count greater than 1 and a placeholder-free name, exactly count names
are generated by appending the consecutive integers 1 through count. -/
theorem claim_C9 (name : String) (count : Nat) :
    build_names name 1 = [name] ∧
    (1 < count → '%' ∉ name.data →
      build_names name count = (List.range' 1 count).map (fun n => name ++ toString n)) := by
  constructor
  · rfl
  · intro hcount hp
    have hspec := hasSpecChars_no_percent name.data hp
    have hf : ∀ m : Nat, formatD (name ++ "%d") m = name ++ toString m := by
      intro m
      unfold formatD
      rw [string_append_eq name "%d", string_append_eq name (toString m)]
      show String.mk (formatDChars (name.data ++ '%' :: 'd' :: []) m) = _
      rw [formatDChars_no_spec m name.data hp]
      rfl
    unfold build_names
    rw [if_pos hcount]
    simp only [hspec, Bool.false_eq_true, if_false]
    rw [List.take_of_length_le (by simp)]
    congr 1
    funext m
    exact hf m

theorem claim_C9_witness :
    build_names ("vol") 1 = [("vol")] ∧
    build_names ("vol") 3 = (List.range' 1 3).map (fun n => ("vol") ++ toString n) :=
  ⟨(claim_C9 ("vol") 3).1, (claim_C9 ("vol") 3).2 (by decide) (by decide)⟩

/-- Claim C10: update_volume fails before any volume lookup or SDK call (the
trace is empty) when a name is set together with more than one instance id,
and likewise when no name is set and the instance id list is empty. -/
theorem claim_C10 (env : SdkEnv) (p : VolumeParams) :
    ((p.name.isSome ∧ 1 < p.instance_ids.length) →
      update_volume env p =
        (StepResult.exit (ModuleExit.failure
          ("when renaming, instance_ids can only have one id at most")), [])) ∧
    ((p.name = none ∧ p.instance_ids.length < 1) →
      update_volume env p =
        (StepResult.exit (ModuleExit.failure
          ("instance_ids should be a list of volume ids or names, aborting")), [])) := by
  constructor
  · rintro ⟨hn, hlen⟩
    obtain ⟨nm, hnm⟩ := Option.isSome_iff_exists.mp hn
    have hpre : update_precheck p =
        failJson ("when renaming, instance_ids can only have one id at most") := by
      unfold update_precheck
      rw [hnm, if_pos hlen]
    unfold update_volume
    rw [res_bind_def, hpre]
    rfl
  · rintro ⟨hn, hlen⟩
    have hpre : update_precheck p =
        failJson ("instance_ids should be a list of volume ids or names, aborting") := by
      unfold update_precheck
      rw [hn, if_pos hlen]
    unfold update_volume
    rw [res_bind_def, hpre]
    rfl

theorem claim_C10_witness :
    update_volume envNoop pC10a =
      (StepResult.exit (ModuleExit.failure
        ("when renaming, instance_ids can only have one id at most")), []) ∧
    update_volume envNoop pC10b =
      (StepResult.exit (ModuleExit.failure
        ("instance_ids should be a list of volume ids or names, aborting")), []) :=
  ⟨(claim_C10 envNoop pC10a).1 ⟨by decide, by decide⟩,
   (claim_C10 envNoop pC10b).2 ⟨rfl, by decide⟩⟩

theorem create_trace_eq (env : SdkEnv) (p : VolumeParams) (dc : String) (name : Option String)
    (vr : Resource) (loc : String)
    (hcm : p.check_mode = false)
    (hpost : env.volumes_post dc name = Except.ok (vr, loc)) :
    (_create_volume env p dc name).2 =
      SdkCall.volumesPost dc name ::
        (if p.wait then
          (match _get_request_id loc with
           | Except.ok rid => [SdkCall.waitForCompletion rid p.wait_timeout]
           | Except.error _ => [])
         else []) := by
  unfold _create_volume
  rw [hcm, hpost]
  cases hw : p.wait with
  | false =>
    simp [res_bind_def, resBind, sdkCall, catchExc, res_pure_def, hw]
  | true =>
    cases hr : _get_request_id loc with
    | ok rid =>
      cases he : env.wait_for_completion rid p.wait_timeout <;>
        simp [res_bind_def, resBind, sdkCall, catchExc, raiseExc, failJson,
          res_pure_def, hw, hr, he]
    | error m =>
      simp [res_bind_def, resBind, sdkCall, catchExc, raiseExc, failJson,
        res_pure_def, hw, hr]

theorem update_trace_eq (env : SdkEnv) (p : VolumeParams) (dc : String) (volume : Resource)
    (nm : String) (vr : Resource) (loc : String)
    (hcm : p.check_mode = false)
    (hname : p.name = some nm)
    (hput : env.volumes_put dc none nm = Except.ok (vr, loc)) :
    (_update_volume env p dc volume).2 =
      SdkCall.volumesPut dc none nm ::
        (if p.wait then
          (match _get_request_id loc with
           | Except.ok rid => [SdkCall.waitForCompletion rid p.wait_timeout]
           | Except.error _ => [])
         else []) := by
  unfold _update_volume
  rw [hcm, hname]
  cases hw : p.wait with
  | false =>
    simp [res_bind_def, resBind, sdkCall, catchExc, res_pure_def, hw, hput]
  | true =>
    cases hr : _get_request_id loc with
    | ok rid =>
      cases he : env.wait_for_completion rid p.wait_timeout <;>
        simp [res_bind_def, resBind, sdkCall, catchExc, raiseExc, failJson,
          res_pure_def, hw, hr, he, hput]
    | error m =>
      simp [res_bind_def, resBind, sdkCall, catchExc, raiseExc, failJson,
        res_pure_def, hw, hr, hput]

/-- Claim C5: in volume create and update, wait_for_completion is called if
and only if the wait parameter is set, and when called it receives the
request id extracted from the response Location header and the wait_timeout
parameter as timeout. -/
theorem claim_C5 (env : SdkEnv) (p : VolumeParams) (dc : String) (name : Option String)
    (nm : String) (vr vrU : Resource) (loc locU : String) (volume : Resource)
    (hcm : p.check_mode = false)
    (hpost : env.volumes_post dc name = Except.ok (vr, loc))
    (hname : p.name = some nm)
    (hput : env.volumes_put dc none nm = Except.ok (vrU, locU)) :
    ((p.wait = false → ∀ rid tmo,
        SdkCall.waitForCompletion rid tmo ∉ (_create_volume env p dc name).2) ∧
     (∀ rid tmo, SdkCall.waitForCompletion rid tmo ∈ (_create_volume env p dc name).2 →
        p.wait = true ∧ _get_request_id loc = Except.ok rid ∧ tmo = p.wait_timeout) ∧
     (p.wait = true → ∀ rid, _get_request_id loc = Except.ok rid →
        SdkCall.waitForCompletion rid p.wait_timeout ∈ (_create_volume env p dc name).2)) ∧
    ((p.wait = false → ∀ rid tmo,
        SdkCall.waitForCompletion rid tmo ∉ (_update_volume env p dc volume).2) ∧
     (∀ rid tmo, SdkCall.waitForCompletion rid tmo ∈ (_update_volume env p dc volume).2 →
        p.wait = true ∧ _get_request_id locU = Except.ok rid ∧ tmo = p.wait_timeout) ∧
     (p.wait = true → ∀ rid, _get_request_id locU = Except.ok rid →
        SdkCall.waitForCompletion rid p.wait_timeout ∈ (_update_volume env p dc volume).2)) := by
  rw [create_trace_eq env p dc name vr loc hcm hpost,
    update_trace_eq env p dc volume nm vrU locU hcm hname hput]
  constructor
  · refine ⟨?_, ?_, ?_⟩
    · intro hw rid tmo
      simp [hw]
    · intro rid tmo hmem
      cases hw : p.wait with
      | false => rw [hw] at hmem; simp at hmem
      | true =>
        rw [hw] at hmem
        cases hr : _get_request_id loc with
        | ok rid2 =>
          rw [hr] at hmem
          simp at hmem
          exact ⟨rfl, by rw [hmem.1], hmem.2⟩
        | error m => rw [hr] at hmem; simp at hmem
    · intro hw rid hr
      rw [hw, hr]
      simp
  · refine ⟨?_, ?_, ?_⟩
    · intro hw rid tmo
      simp [hw]
    · intro rid tmo hmem
      cases hw : p.wait with
      | false => rw [hw] at hmem; simp at hmem
      | true =>
        rw [hw] at hmem
        cases hr : _get_request_id locU with
        | ok rid2 =>
          rw [hr] at hmem
          simp at hmem
          exact ⟨rfl, by rw [hmem.1], hmem.2⟩
        | error m => rw [hr] at hmem; simp at hmem
    · intro hw rid hr
      rw [hw, hr]
      simp

theorem claim_C5_witness :
    SdkCall.waitForCompletion ("abc") 600 ∈
      (_create_volume envOkPost pC5 ("dc1") (some ("vol"))).2 ∧
    SdkCall.waitForCompletion ("abc") 600 ∈
      (_update_volume envOkPost pC5 ("dc1") resA).2 := by
  have h := claim_C5 envOkPost pC5 ("dc1") (some ("vol")) ("n2") resA resA
    ("/requests/abc/status") ("/requests/abc/status") resA rfl rfl rfl rfl
  exact ⟨h.1.2.2 rfl ("abc") (by decide), h.2.2.2 rfl ("abc") (by decide)⟩

/-- Claim C4: an exception raised by an SDK call during the state operation is
caught by main and turned into a fail_json whose message carries the exception
text as a suffix; no exception ever leaves main, in either module. -/
theorem claim_C4 (envV : SdkEnv) (pV : VolumeParams) (envP : PgEnv) (pP : PgParams)
    (mV mP : String) (tV tP : List SdkCall)
    (hchkV : check_required_arguments_volume pV = none)
    (hbodyV : volume_try_body envV pV = some (StepResult.exn mV, tV))
    (hchkP : check_required_arguments_pg pP = none)
    (hbodyP : postgres_try envP pP = (StepResult.exn mP, tP)) :
    volume_main envV pV =
      some (StepResult.exit (ModuleExit.failure
        ("failed to set Volume state " ++ pV.state ++ ": " ++ mV)), tV) ∧
    postgres_main envP pP =
      (StepResult.exit (ModuleExit.failure
        ("failed to retrieve Postgres Cluster Backups: " ++ mP)), tP) ∧
    (∀ env p x, volume_main env p = some x → ∀ m, x.1 ≠ StepResult.exn m) ∧
    (∀ env p m, (postgres_main env p).1 ≠ StepResult.exn m) := by
  refine ⟨?_, ?_, ?_, ?_⟩
  · unfold volume_main
    rw [hchkV, hbodyV]
    rfl
  · unfold postgres_main
    rw [hchkP, hbodyP]
  · intro env p x hx m
    unfold volume_main at hx
    cases hc : check_required_arguments_volume p with
    | some msg =>
      rw [hc] at hx
      simp at hx
      rw [← hx]
      simp
    | none =>
      rw [hc] at hx
      cases hb : volume_try_body env p with
      | none => rw [hb] at hx; simp at hx
      | some y =>
        rw [hb] at hx
        obtain ⟨r, t⟩ := y
        cases r <;> (simp at hx; subst hx; simp)
  · intro env p m
    unfold postgres_main
    cases hc : check_required_arguments_pg p with
    | some msg => simp [hc]
    | none =>
      rcases hpt : postgres_try env p with ⟨r, t⟩
      cases r <;> simp [hc, hpt]

theorem claim_C4_witness :
    volume_main envNoop pC4v =
      some (StepResult.exit (ModuleExit.failure
        ("failed to set Volume state absent: unreached")), [SdkCall.datacentersGet]) ∧
    postgres_main envPgErr pPg4 =
      (StepResult.exit (ModuleExit.failure
        ("failed to retrieve Postgres Cluster Backups: pgboom")), [SdkCall.clustersBackupsGet]) := by
  have h := claim_C4 envNoop pC4v envPgErr pPg4 ("unreached") ("pgboom")
    [SdkCall.datacentersGet] [SdkCall.clustersBackupsGet]
    (by decide) (by decide) (by decide) (by decide)
  exact ⟨h.1, h.2.1⟩

theorem resBind_fst_ok {α β : Type} {x : Res α} {f : α → Res β} {b : β}
    (h : (resBind x f).1 = StepResult.ok b) :
    ∃ a, x.1 = StepResult.ok a ∧ (f a).1 = StepResult.ok b := by
  obtain ⟨s, t⟩ := x
  cases s with
  | ok a => exact ⟨a, rfl, h⟩
  | exit e => simp [resBind] at h
  | exn m => simp [resBind] at h

theorem sdkCall_fst_ok {α : Type} {c : SdkCall} {r : Except String α} {a : α}
    (h : (sdkCall c r).1 = StepResult.ok a) : r = Except.ok a := by
  cases r with
  | ok x => simp [sdkCall] at h; rw [h]
  | error m => simp [sdkCall] at h

theorem successFree_bind {α β : Type} {x : Res α} {f : α → Res β}
    (hx : successFree x) (hf : ∀ a, successFree (f a)) : successFree (x >>= f) := by
  obtain ⟨s, t⟩ := x
  intro r
  cases s with
  | ok a => simp only [res_bind_def, resBind]; exact hf a r
  | exit e => simp only [res_bind_def, resBind]; simpa using hx r
  | exn m => simp only [res_bind_def, resBind]; simp

theorem successFree_sdkCall {α : Type} (c : SdkCall) (r : Except String α) :
    successFree (sdkCall c r) := by
  cases r <;> intro x <;> simp [sdkCall]

theorem successFree_failJson {α : Type} (msg : String) :
    successFree (failJson msg : Res α) := by
  intro r; simp [failJson]

theorem successFree_pure {α : Type} (a : α) : successFree (pure a : Res α) := by
  intro r; simp [res_pure_def]

theorem successFree_raiseExc {α : Type} (r : Except String α) :
    successFree (raiseExc r) := by
  cases r <;> intro x <;> simp [raiseExc]

theorem successFree_get_resourceR (rl : ResourceList) (i : Ident)
    (paths : Option (List IdentityPath)) : successFree (get_resourceR rl i paths) := by
  unfold get_resourceR
  split <;> intro r <;> simp

theorem successFree_get_resource_idR (rl : ResourceList) (i : Ident)
    (paths : Option (List IdentityPath)) : successFree (get_resource_idR rl i paths) := by
  unfold get_resource_idR
  split <;> intro r <;> simp

theorem successFree_catchExc {α : Type} {x : Res α} {h : String → Res α}
    (hx : successFree x) (hh : ∀ m, successFree (h m)) : successFree (catchExc x h) := by
  obtain ⟨s, t⟩ := x
  cases s with
  | ok a => intro r; exact hx r
  | exit e => intro r; exact hx r
  | exn m => intro r; exact hh m r

theorem successFree_create_names (n : Option String) (c : Nat) :
    successFree (create_names n c) := by
  intro r
  cases n with
  | some nm => simp [create_names]
  | none =>
    simp only [create_names]
    split <;> simp

theorem successFree_create_volume_helper (env : SdkEnv) (p : VolumeParams) (dc : String)
    (name : Option String) (hcm : p.check_mode = false) :
    successFree (_create_volume env p dc name) := by
  unfold _create_volume
  rw [if_neg (by simp [hcm])]
  apply successFree_catchExc
  · apply successFree_bind (successFree_sdkCall _ _)
    intro vr
    split
    · apply successFree_bind (successFree_raiseExc _)
      intro rid
      apply successFree_bind (successFree_sdkCall _ _)
      intro u
      exact successFree_pure _
    · exact successFree_pure _
  · intro m; exact successFree_failJson _

theorem successFree_update_volume_helper (env : SdkEnv) (p : VolumeParams) (dc : String)
    (volume : Resource) (hcm : p.check_mode = false) :
    successFree (_update_volume env p dc volume) := by
  unfold _update_volume
  rw [if_neg (by simp [hcm])]
  apply successFree_catchExc
  · apply successFree_bind
    · cases p.name with
      | some nm => exact successFree_pure _
      | none => exact successFree_raiseExc _
    · intro nm
      apply successFree_bind (successFree_sdkCall _ _)
      intro vr
      split
      · apply successFree_bind (successFree_raiseExc _)
        intro rid
        apply successFree_bind (successFree_sdkCall _ _)
        intro u
        exact successFree_pure _
      · exact successFree_pure _
  · intro m; exact successFree_failJson _

theorem successFree_delete_volume_helper (env : SdkEnv) (p : VolumeParams)
    (dc : Option String) (v : String) (hcm : p.check_mode = false) :
    successFree (_delete_volume env p dc v) := by
  unfold _delete_volume
  rw [if_neg (by simp [hcm])]
  apply successFree_catchExc (successFree_sdkCall _ _)
  intro m; exact successFree_failJson _

theorem successFree_attach_volume_helper (env : SdkEnv) (p : VolumeParams) (dc : String)
    (vid : String) : successFree (_attach_volume env p dc vid) := by
  unfold _attach_volume
  split
  · apply successFree_bind (successFree_sdkCall _ _)
    intro sl
    apply successFree_bind (successFree_get_resource_idR _ _ _)
    intro sid
    apply successFree_catchExc
    · apply successFree_bind (successFree_sdkCall _ _)
      intro r
      exact successFree_pure _
    · intro m; exact successFree_failJson _
  · exact successFree_pure _

theorem successFree_create_loop (env : SdkEnv) (p : VolumeParams) (dcid : String)
    (vl : ResourceList) (hcm : p.check_mode = false) :
    ∀ names, successFree (create_loop env p dcid vl names) := by
  intro names
  induction names with
  | nil => exact successFree_pure _
  | cons name rest ih =>
    unfold create_loop
    apply successFree_bind (successFree_get_resource_idR _ _ _)
    intro evid
    cases evid with
    | some vid =>
      apply successFree_bind (successFree_sdkCall _ _)
      intro cr
      apply successFree_bind (successFree_attach_volume_helper _ _ _ _)
      intro u
      apply successFree_bind ih
      intro rr
      exact successFree_pure _
    | none =>
      apply successFree_bind (successFree_create_volume_helper _ _ _ _ hcm)
      intro cr
      apply successFree_bind (successFree_attach_volume_helper _ _ _ _)
      intro u
      apply successFree_bind ih
      intro rr
      exact successFree_pure _

theorem successFree_check_instances (vl : ResourceList) :
    ∀ ids, successFree (check_instances vl ids) := by
  intro ids
  induction ids with
  | nil => exact successFree_pure _
  | cons i rest ih =>
    unfold check_instances
    apply successFree_bind (successFree_get_resourceR _ _ _)
    intro v
    cases v with
    | none => exact successFree_failJson _
    | some vol =>
      apply successFree_bind ih
      intro vs
      exact successFree_pure _

theorem successFree_update_loop (env : SdkEnv) (p : VolumeParams) (dcid : String)
    (vl : ResourceList) (hcm : p.check_mode = false) :
    ∀ insts, successFree (update_loop env p dcid vl insts) := by
  intro insts
  induction insts with
  | nil => exact successFree_pure _
  | cons inst rest ih =>
    unfold update_loop
    apply successFree_bind
    · cases p.name with
      | none => exact successFree_pure _
      | some nm => exact successFree_get_resource_idR _ _ _
    · intro ex
      cases ex with
      | some s => exact successFree_failJson _
      | none =>
        apply successFree_bind (successFree_get_resourceR _ _ _)
        intro v
        cases v with
        | some vol =>
          apply successFree_bind (successFree_update_volume_helper _ _ _ _ hcm)
          intro ur
          apply successFree_bind ih
          intro rr
          exact successFree_pure _
        | none => exact ih

theorem successFree_delete_loop (env : SdkEnv) (p : VolumeParams) (did : Option String)
    (vols : ResourceList) (hcm : p.check_mode = false) :
    ∀ ids changed prev, successFree (delete_loop env p did vols ids changed prev) := by
  intro ids
  induction ids with
  | nil => intro changed prev; exact successFree_pure _
  | cons n rest ih =>
    intro changed prev
    unfold delete_loop
    apply successFree_bind (successFree_get_resource_idR _ _ _)
    intro vid
    cases vid with
    | some v =>
      apply successFree_bind (successFree_delete_volume_helper _ _ _ _ hcm)
      intro u
      exact ih true (some v)
    | none => exact ih changed none

theorem successFree_delete_volume (env : SdkEnv) (p : VolumeParams)
    (hcm : p.check_mode = false) : successFree (delete_volume env p) := by
  unfold delete_volume
  split
  · exact successFree_failJson _
  · apply successFree_bind (successFree_sdkCall _ _)
    intro dl
    apply successFree_bind (successFree_get_resource_idR _ _ _)
    intro did
    apply successFree_bind (successFree_sdkCall _ _)
    intro vols
    apply successFree_bind (successFree_delete_loop _ _ _ _ hcm _ _ _)
    intro lr
    exact successFree_pure _

theorem successFree_create_volume (env : SdkEnv) (p : VolumeParams)
    (hcm : p.check_mode = false) : successFree (create_volume env p) := by
  unfold create_volume
  apply successFree_bind (successFree_sdkCall _ _)
  intro dl
  apply successFree_bind (successFree_get_resource_idR _ _ _)
  intro did
  cases did with
  | none => exact successFree_failJson _
  | some dcid =>
    apply successFree_bind (successFree_create_names _ _)
    intro names
    apply successFree_bind (successFree_sdkCall _ _)
    intro vl
    apply successFree_bind (successFree_create_loop _ _ _ _ hcm _)
    intro lr
    exact successFree_pure _

theorem successFree_update_precheck (p : VolumeParams) :
    successFree (update_precheck p) := by
  intro r
  cases hn : p.name with
  | none =>
    simp only [update_precheck, hn]
    split <;> simp [failJson]
  | some nm =>
    simp only [update_precheck, hn]
    split <;> simp [failJson]

theorem successFree_update_volume (env : SdkEnv) (p : VolumeParams)
    (hcm : p.check_mode = false) : successFree (update_volume env p) := by
  unfold update_volume
  apply successFree_bind (successFree_update_precheck _)
  intro u
  apply successFree_bind (successFree_sdkCall _ _)
  intro dl
  apply successFree_bind (successFree_get_resource_idR _ _ _)
  intro did
  cases did with
  | none => exact successFree_failJson _
  | some dcid =>
    apply successFree_bind (successFree_sdkCall _ _)
    intro vl
    apply successFree_bind (successFree_check_instances _ _)
    intro ci
    apply successFree_bind (successFree_update_loop _ _ _ _ hcm _)
    intro lr
    exact successFree_pure _

theorem delete_ok_shape {env : SdkEnv} {p : VolumeParams} {r : ResDict} {t : List SdkCall}
    (h : delete_volume env p = (StepResult.ok r, t)) :
    ∃ ch vid, r = [("action", RVal.s ("delete")), ("changed", RVal.b ch),
      ("id", RVal.os vid)] := by
  have h1 : (delete_volume env p).1 = StepResult.ok r := by rw [h]
  unfold delete_volume at h1
  by_cases hlen : p.instance_ids.length < 1
  · rw [if_pos hlen] at h1
    simp [failJson] at h1
  · rw [if_neg hlen] at h1
    simp only [res_bind_def] at h1
    obtain ⟨dl, hdl, h1⟩ := resBind_fst_ok h1
    obtain ⟨did, hdid, h1⟩ := resBind_fst_ok h1
    obtain ⟨vols, hvols, h1⟩ := resBind_fst_ok h1
    obtain ⟨lr, hlr, h1⟩ := resBind_fst_ok h1
    simp [res_pure_def] at h1
    exact ⟨lr.1, lr.2, h1.symm⟩

theorem create_ok_shape {env : SdkEnv} {p : VolumeParams} {r : ResDict} {t : List SdkCall}
    (h : create_volume env p = (StepResult.ok r, t)) :
    ∃ ch vols iids, r = [("changed", RVal.b ch), ("failed", RVal.b false),
      ("volumes", RVal.lr vols), ("action", RVal.s ("create")),
      ("instance_ids", RVal.ls iids)] := by
  have h1 : (create_volume env p).1 = StepResult.ok r := by rw [h]
  unfold create_volume at h1
  simp only [res_bind_def] at h1
  obtain ⟨dl, hdl, h1⟩ := resBind_fst_ok h1
  obtain ⟨did, hdid, h1⟩ := resBind_fst_ok h1
  cases did with
  | none => simp [failJson] at h1
  | some dcid =>
    obtain ⟨names, hnames, h1⟩ := resBind_fst_ok h1
    obtain ⟨vl, hvl, h1⟩ := resBind_fst_ok h1
    obtain ⟨lr, hlr, h1⟩ := resBind_fst_ok h1
    simp [res_pure_def] at h1
    exact ⟨lr.2.2, lr.1, lr.2.1, h1.symm⟩

theorem update_ok_shape {env : SdkEnv} {p : VolumeParams} {r : ResDict} {t : List SdkCall}
    (h : update_volume env p = (StepResult.ok r, t)) :
    ∃ ch vols, r = [("changed", RVal.b ch), ("failed", RVal.b false),
      ("volume", RVal.lr vols), ("action", RVal.s ("update"))] := by
  have h1 : (update_volume env p).1 = StepResult.ok r := by rw [h]
  unfold update_volume at h1
  simp only [res_bind_def] at h1
  obtain ⟨u, hu, h1⟩ := resBind_fst_ok h1
  obtain ⟨dl, hdl, h1⟩ := resBind_fst_ok h1
  obtain ⟨did, hdid, h1⟩ := resBind_fst_ok h1
  cases did with
  | none => simp [failJson] at h1
  | some dcid =>
    obtain ⟨vl, hvl, h1⟩ := resBind_fst_ok h1
    obtain ⟨ci, hci, h1⟩ := resBind_fst_ok h1
    obtain ⟨lr, hlr, h1⟩ := resBind_fst_ok h1
    simp [res_pure_def] at h1
    exact ⟨lr.1, lr.2, h1.symm⟩

theorem successFree_resBind {α β : Type} {x : Res α} {f : α → Res β}
    (hx : successFree x) (hf : ∀ a, successFree (f a)) : successFree (resBind x f) :=
  successFree_bind hx hf

theorem successFree_postgres_try (env : PgEnv) (p : PgParams) :
    successFree (postgres_try env p) := by
  unfold postgres_try
  simp only [res_bind_def]
  split
  · apply successFree_resBind (successFree_sdkCall _ _)
    intro cl
    apply successFree_resBind (successFree_get_resource_idR _ _ _)
    intro cid
    apply successFree_resBind (successFree_sdkCall _ _)
    intro y
    exact successFree_pure _
  · apply successFree_resBind (successFree_sdkCall _ _)
    intro y
    exact successFree_pure _

theorem postgres_try_ok_shape {env : PgEnv} {p : PgParams} {r : ResDict}
    (h1 : (postgres_try env p).1 = StepResult.ok r) :
    ∃ bs, r = [("result", RVal.lbd (bs.map Backup.to_dict))] ∧
      (truthy p.postgres_cluster = false → env.clusters_backups_get = Except.ok bs) := by
  unfold postgres_try at h1
  simp only [res_bind_def] at h1
  by_cases htr : truthy p.postgres_cluster = true
  · rw [if_pos htr] at h1
    obtain ⟨cl, hcl, h1⟩ := resBind_fst_ok h1
    obtain ⟨cid, hcid, h1⟩ := resBind_fst_ok h1
    obtain ⟨bs, hbs, h1⟩ := resBind_fst_ok h1
    simp [res_pure_def] at h1
    refine ⟨bs, h1.symm, ?_⟩
    intro hfalse
    simp [htr] at hfalse
  · rw [if_neg htr] at h1
    obtain ⟨bs, hbs, h1⟩ := resBind_fst_ok h1
    simp [res_pure_def] at h1
    exact ⟨bs, h1.symm, fun _ => sdkCall_fst_ok hbs⟩

/-- Inversion of a successful volume_main run outside check mode: the success
value is the ok result of the state operation selected by the state. -/
theorem volume_main_success_inv {env : SdkEnv} {p : VolumeParams} {r : ResDict}
    {t : List SdkCall}
    (hcm : p.check_mode = false)
    (h : volume_main env p = some (StepResult.exit (ModuleExit.success r), t)) :
    (p.state = "absent" ∧ delete_volume env p = (StepResult.ok r, t)) ∨
    (p.state = "present" ∧ create_volume env p = (StepResult.ok r, t)) ∨
    (p.state = "update" ∧ update_volume env p = (StepResult.ok r, t)) := by
  unfold volume_main at h
  cases hc : check_required_arguments_volume p with
  | some msg => rw [hc] at h; simp at h
  | none =>
    rw [hc] at h
    cases hb : volume_try_body env p with
    | none => rw [hb] at h; simp at h
    | some y =>
      rw [hb] at h
      obtain ⟨s, ty⟩ := y
      unfold volume_try_body at hb
      by_cases hs1 : p.state = "absent"
      · rw [if_pos hs1] at hb
        have hop : delete_volume env p = (s, ty) := by
          exact (Option.some.injEq _ _).mp hb
        cases s with
        | ok a =>
          simp at h
          left
          exact ⟨hs1, by rw [hop, h.1, h.2]⟩
        | exit e =>
          simp at h
          exact absurd (by rw [hop, h.1] :
            (delete_volume env p).1 = StepResult.exit (ModuleExit.success r))
            (successFree_delete_volume env p hcm r)
        | exn m => simp at h
      · rw [if_neg hs1] at hb
        by_cases hs2 : p.state = "present"
        · rw [if_pos hs2] at hb
          have hop : create_volume env p = (s, ty) := by
            exact (Option.some.injEq _ _).mp hb
          cases s with
          | ok a =>
            simp at h
            right; left
            exact ⟨hs2, by rw [hop, h.1, h.2]⟩
          | exit e =>
            simp at h
            exact absurd (by rw [hop, h.1] :
              (create_volume env p).1 = StepResult.exit (ModuleExit.success r))
              (successFree_create_volume env p hcm r)
          | exn m => simp at h
        · rw [if_neg hs2] at hb
          by_cases hs3 : p.state = "update"
          · rw [if_pos hs3] at hb
            have hop : update_volume env p = (s, ty) := by
              exact (Option.some.injEq _ _).mp hb
            cases s with
            | ok a =>
              simp at h
              right; right
              exact ⟨hs3, by rw [hop, h.1, h.2]⟩
            | exit e =>
              simp at h
              exact absurd (by rw [hop, h.1] :
                (update_volume env p).1 = StepResult.exit (ModuleExit.success r))
                (successFree_update_volume env p hcm r)
            | exn m => simp at h
          · rw [if_neg hs3] at hb
            simp at hb

theorem postgres_main_success_inv {env : PgEnv} {p : PgParams} {r : ResDict}
    {t : List SdkCall}
    (h : postgres_main env p = (StepResult.exit (ModuleExit.success r), t)) :
    (postgres_try env p).1 = StepResult.ok r := by
  unfold postgres_main at h
  cases hc : check_required_arguments_pg p with
  | some msg => rw [hc] at h; simp at h
  | none =>
    rw [hc] at h
    rcases hpt : postgres_try env p with ⟨s, tp⟩
    rw [hpt] at h
    cases s with
    | ok a =>
      simp at h
      simp [h.1]
    | exit e =>
      simp at h
      have hsf := successFree_postgres_try env p r
      rw [hpt] at hsf
      exact absurd (by simp [h.1]) hsf
    | exn m => simp at h

/-- Claim C6 (amended): outside check mode, every volume module invocation
that does not fail exits with a dict holding at least the key changed and the
key action naming the operation of the selected state; postgres_backup_info
exits with result equal to one to_dict per backup (in check mode the volume
module can instead exit early with only changed true, see the
counterexample). -/
theorem claim_C6 (envV : SdkEnv) (pV : VolumeParams) (rV : ResDict) (tV : List SdkCall)
    (envP : PgEnv) (pP : PgParams) (rP : ResDict) (tP : List SdkCall)
    (hcm : pV.check_mode = false)
    (hV : volume_main envV pV = some (StepResult.exit (ModuleExit.success rV), tV))
    (hP : postgres_main envP pP = (StepResult.exit (ModuleExit.success rP), tP)) :
    ((List.lookup ("changed") rV).isSome ∧
     (pV.state = "present" → List.lookup ("action") rV = some (RVal.s ("create"))) ∧
     (pV.state = "absent" → List.lookup ("action") rV = some (RVal.s ("delete"))) ∧
     (pV.state = "update" → List.lookup ("action") rV = some (RVal.s ("update")))) ∧
    (∃ bs, rP = [("result", RVal.lbd (bs.map Backup.to_dict))] ∧
      (truthy pP.postgres_cluster = false → envP.clusters_backups_get = Except.ok bs)) := by
  constructor
  · rcases volume_main_success_inv hcm hV with ⟨hs, hop⟩ | ⟨hs, hop⟩ | ⟨hs, hop⟩
    · obtain ⟨ch, vid, hr⟩ := delete_ok_shape hop
      subst hr
      refine ⟨by simp [List.lookup], ?_, ?_, ?_⟩
      · intro h'; rw [hs] at h'; exact absurd h' (by decide)
      · intro _; simp [List.lookup]
      · intro h'; rw [hs] at h'; exact absurd h' (by decide)
    · obtain ⟨ch, vols, iids, hr⟩ := create_ok_shape hop
      subst hr
      refine ⟨by simp [List.lookup], ?_, ?_, ?_⟩
      · intro _; simp [List.lookup]
      · intro h'; rw [hs] at h'; exact absurd h' (by decide)
      · intro h'; rw [hs] at h'; exact absurd h' (by decide)
    · obtain ⟨ch, vols, hr⟩ := update_ok_shape hop
      subst hr
      refine ⟨by simp [List.lookup], ?_, ?_, ?_⟩
      · intro h'; rw [hs] at h'; exact absurd h' (by decide)
      · intro h'; rw [hs] at h'; exact absurd h' (by decide)
      · intro _; simp [List.lookup]
  · exact postgres_try_ok_shape (postgres_main_success_inv hP)

/-- Claim C6 counterexample: a check-mode absent run that finds its volume
exits successfully with only the key changed; there is no action key in the
result dict. -/
theorem claim_C6_counterexample :
    volume_main envDel pC6cm =
      some (StepResult.exit (ModuleExit.success ([("changed", RVal.b true)])),
        [SdkCall.datacentersGet, SdkCall.volumesGet (some ("dc1"))]) ∧
    List.lookup ("action") ([(("changed" : String), RVal.b true)]) = none :=
  ⟨by decide, rfl⟩

theorem claim_C6_witness :
    (List.lookup ("changed") ([("action", RVal.s ("delete")), ("changed", RVal.b false),
        ("id", RVal.os none)] : ResDict)).isSome ∧
    List.lookup ("action") ([("action", RVal.s ("delete")), ("changed", RVal.b false),
        ("id", RVal.os none)] : ResDict) = some (RVal.s ("delete")) := by
  have h := claim_C6 envDel pC6w
    ([("action", RVal.s ("delete")), ("changed", RVal.b false), ("id", RVal.os none)])
    [SdkCall.datacentersGet, SdkCall.volumesGet (some ("dc1"))]
    envPgOk pPg4
    ([("result", RVal.lbd [[(("id" : String), ("b1" : String)), ("cluster_id", "c1")]])])
    [SdkCall.clustersBackupsGet] rfl (by decide) (by decide)
  exact ⟨h.1.1, h.1.2.2.1 rfl⟩

theorem resBind_countP_le {α β : Type} {x : Res α} {f : α → Res β} {pr : SdkCall → Bool}
    {a b : Nat} (hx : x.2.countP pr ≤ a) (hf : ∀ v, (f v).2.countP pr ≤ b) :
    (resBind x f).2.countP pr ≤ a + b := by
  obtain ⟨s, t⟩ := x
  have hx2 : t.countP pr ≤ a := hx
  cases s with
  | ok v =>
    have hf2 := hf v
    show (t ++ (f v).2).countP pr ≤ a + b
    rw [List.countP_append]
    omega
  | exit e => exact le_trans hx2 (Nat.le_add_right a b)
  | exn m => exact le_trans hx2 (Nat.le_add_right a b)

theorem sdkCall_trace {α : Type} (c : SdkCall) (r : Except String α) :
    (sdkCall c r).2 = [c] := by
  cases r <;> rfl

theorem get_resource_idR_trace (rl : ResourceList) (i : Ident)
    (paths : Option (List IdentityPath)) : (get_resource_idR rl i paths).2 = [] := by
  unfold get_resource_idR
  split <;> rfl

theorem get_resourceR_trace (rl : ResourceList) (i : Ident)
    (paths : Option (List IdentityPath)) : (get_resourceR rl i paths).2 = [] := by
  unfold get_resourceR
  split <;> rfl

theorem delete_helper_countP (env : SdkEnv) (p : VolumeParams) (did : Option String)
    (v : String) : (_delete_volume env p did v).2.countP isDeleteCall ≤ 1 := by
  unfold _delete_volume
  split
  · simp [exitJson]
  · cases he : env.volumes_delete did v <;>
      simp [sdkCall, catchExc, failJson, List.countP_cons, isDeleteCall]

theorem delete_loop_count (env : SdkEnv) (p : VolumeParams) (did : Option String)
    (vols : ResourceList) :
    ∀ ids changed prev,
      ((delete_loop env p did vols ids changed prev).2.countP isDeleteCall) ≤ ids.length := by
  intro ids
  induction ids with
  | nil => intro changed prev; simp [delete_loop, res_pure_def]
  | cons n rest ih =>
    intro changed prev
    unfold delete_loop
    simp only [res_bind_def, List.length_cons]
    refine le_trans (resBind_countP_le (a := 0) (b := 1 + rest.length)
      (by simp [get_resource_idR_trace]) ?_) (by omega)
    intro v
    cases v with
    | none => exact le_trans (ih changed none) (by omega)
    | some vid =>
      refine le_trans (resBind_countP_le (a := 1) (b := rest.length)
        (delete_helper_countP env p did vid) ?_) (by omega)
      intro u
      exact ih true (some vid)

theorem _delete_volume_err_halt (env : SdkEnv) (p : VolumeParams) (did : Option String)
    (v : String) (m : String) (hcm : p.check_mode = false)
    (herr : env.volumes_delete did v = Except.error m) :
    _delete_volume env p did v =
      (StepResult.exit (ModuleExit.failure ("failed to remove the volume: " ++ m)),
        [SdkCall.volumesDelete did v]) := by
  unfold _delete_volume
  rw [if_neg (by simp [hcm]), herr]
  rfl

theorem delete_step_fail_once (env : SdkEnv) (p : VolumeParams) (did : Option String)
    (vols : ResourceList) (rest : List String) (x : Option String) (y m : String)
    (vid : String)
    (hdel : env.volumes_delete x y = Except.error m)
    (ih : countCall (SdkCall.volumesDelete x y)
      (delete_loop env p did vols rest true (some vid)).2 ≤ 1) :
    countCall (SdkCall.volumesDelete x y)
      (resBind (_delete_volume env p did vid)
        (fun _ => delete_loop env p did vols rest true (some vid))).2 ≤ 1 := by
  cases hcm : p.check_mode with
  | true =>
    unfold _delete_volume
    rw [if_pos hcm]
    simp [exitJson, resBind, countCall]
  | false =>
    cases he : env.volumes_delete did vid with
    | error m2 =>
      rw [_delete_volume_err_halt env p did vid m2 hcm he]
      simp [resBind, countCall, List.countP_cons]
      split <;> simp
    | ok u =>
      have hne : SdkCall.volumesDelete did vid ≠ SdkCall.volumesDelete x y := by
        intro hEq
        injection hEq with h1 h2
        rw [h1, h2, hdel] at he
        exact Except.noConfusion he
      unfold _delete_volume
      rw [if_neg (by simp [hcm]), he]
      simp only [countCall] at ih ⊢
      simp only [sdkCall, catchExc, resBind, List.countP_append, List.countP_cons]
      simp [hne]
      omega

theorem delete_loop_fail_once (env : SdkEnv) (p : VolumeParams) (did : Option String)
    (vols : ResourceList) (x : Option String) (y : String) (m : String)
    (hdel : env.volumes_delete x y = Except.error m) :
    ∀ ids changed prev,
      countCall (SdkCall.volumesDelete x y)
        (delete_loop env p did vols ids changed prev).2 ≤ 1 := by
  intro ids
  induction ids with
  | nil => intro changed prev; simp [delete_loop, res_pure_def, countCall]
  | cons n rest ih =>
    intro changed prev
    unfold delete_loop
    simp only [res_bind_def, countCall]
    refine le_trans (resBind_countP_le (a := 0) (b := 1)
      (by simp [get_resource_idR_trace]) ?_) (by omega)
    intro v
    cases v with
    | none => exact ih changed none
    | some vid =>
      exact delete_step_fail_once env p did vols rest x y m vid hdel (ih true (some vid))

theorem _create_volume_err_halt (env : SdkEnv) (p : VolumeParams) (dcid : String)
    (n : Option String) (m : String) (hcm : p.check_mode = false)
    (herr : env.volumes_post dcid n = Except.error m) :
    _create_volume env p dcid n =
      (StepResult.exit (ModuleExit.failure ("failed to create the volume: " ++ m)),
        [SdkCall.volumesPost dcid n]) := by
  unfold _create_volume
  rw [if_neg (by simp [hcm]), herr]
  rfl

theorem _create_volume_trace_cases (env : SdkEnv) (p : VolumeParams) (dcid : String)
    (n : Option String) :
    (_create_volume env p dcid n).2 = [] ∨
    (_create_volume env p dcid n).2 = [SdkCall.volumesPost dcid n] ∨
    ∃ rid, (_create_volume env p dcid n).2 =
      [SdkCall.volumesPost dcid n, SdkCall.waitForCompletion rid p.wait_timeout] := by
  cases hcm : p.check_mode with
  | true =>
    left
    unfold _create_volume
    rw [if_pos hcm]
    rfl
  | false =>
    cases hpo : env.volumes_post dcid n with
    | error m =>
      right; left
      rw [_create_volume_err_halt env p dcid n m hcm hpo]
    | ok vr =>
      rw [create_trace_eq env p dcid n vr.1 vr.2 hcm (by rw [hpo])]
      cases hw : p.wait with
      | false => right; left; simp
      | true =>
        cases hr : _get_request_id vr.2 with
        | ok rid => right; right; exact ⟨rid, by simp [hr]⟩
        | error m2 => right; left; simp [hr]

theorem _create_volume_count_ne (env : SdkEnv) (p : VolumeParams) (dcid : String)
    (n : Option String) (dc : String) (nm : Option String)
    (hk : ¬(dcid = dc ∧ n = nm)) :
    countCall (SdkCall.volumesPost dc nm) (_create_volume env p dcid n).2 = 0 := by
  rcases _create_volume_trace_cases env p dcid n with h | h | ⟨rid, h⟩ <;>
    simp [countCall, h, List.countP_cons, hk]

theorem attach_no_post (env : SdkEnv) (p : VolumeParams) (datt : String) (vid : String)
    (dc : String) (nm : Option String) :
    countCall (SdkCall.volumesPost dc nm) (_attach_volume env p datt vid).2 = 0 := by
  unfold _attach_volume
  split
  · simp only [res_bind_def, countCall]
    cases hs : env.servers_get datt with
    | error m => simp [sdkCall, resBind, hs]
    | ok sl =>
      unfold get_resource_idR
      cases hg : get_resource sl (optIdent p.server) none with
      | error m2 => simp [sdkCall, resBind, hs, hg]
      | ok rs =>
        cases hp2 : env.servers_volumes_post datt (rs.map Resource.id) vid with
        | ok r2 =>
          simp [sdkCall, resBind, catchExc, res_pure_def, List.countP_cons,
            List.countP_append, hs, hg, hp2]
        | error m3 =>
          simp [sdkCall, resBind, catchExc, failJson, res_pure_def, List.countP_cons,
            List.countP_append, hs, hg, hp2]
  · simp [res_pure_def, countCall]

theorem create_names_trace (n : Option String) (c : Nat) : (create_names n c).2 = [] := by
  cases n with
  | some nm => rfl
  | none => by_cases h : 1 < c <;> simp [create_names, h]

theorem create_step_fail_once (env : SdkEnv) (p : VolumeParams) (dcid : String)
    (vl : ResourceList) (rest : List (Option String)) (dc : String) (nm : Option String)
    (m : String) (name : Option String)
    (hpost : env.volumes_post dc nm = Except.error m)
    (ih : countCall (SdkCall.volumesPost dc nm) (create_loop env p dcid vl rest).2 ≤ 1) :
    countCall (SdkCall.volumesPost dc nm)
      (resBind (_create_volume env p dcid name)
        (fun cr => resBind (_attach_volume env p dcid cr.id)
          (fun _ => resBind (create_loop env p dcid vl rest)
            (fun rr => pure (cr :: rr.1, cr.id :: rr.2.1, true))))).2 ≤ 1 := by
  by_cases hk : dcid = dc ∧ name = nm
  · obtain ⟨hk1, hk2⟩ := hk
    cases hcm : p.check_mode with
    | true =>
      unfold _create_volume
      rw [if_pos hcm]
      simp [exitJson, resBind, countCall]
    | false =>
      have herr : env.volumes_post dcid name = Except.error m := by
        rw [hk1, hk2]; exact hpost
      rw [_create_volume_err_halt env p dcid name m hcm herr]
      simp [resBind, countCall, List.countP_cons, hk1, hk2]
  · simp only [countCall] at ih ⊢
    refine le_trans (resBind_countP_le (a := 0) (b := 1)
      (le_of_eq (_create_volume_count_ne env p dcid name dc nm hk)) ?_) (by omega)
    intro cr
    refine le_trans (resBind_countP_le (a := 0) (b := 1)
      (le_of_eq (attach_no_post env p dcid cr.id dc nm)) ?_) (by omega)
    intro u
    refine le_trans (resBind_countP_le (a := 1) (b := 0) ih ?_) (by omega)
    intro rr
    simp [res_pure_def]

theorem create_step_existing (env : SdkEnv) (p : VolumeParams) (dcid : String)
    (vl : ResourceList) (rest : List (Option String)) (dc : String) (nm : Option String)
    (vid : String)
    (ih : countCall (SdkCall.volumesPost dc nm) (create_loop env p dcid vl rest).2 ≤ 1) :
    countCall (SdkCall.volumesPost dc nm)
      (resBind (sdkCall (SdkCall.volumesFindById dcid vid) (env.volumes_find_by_id dcid vid))
        (fun cr => resBind (_attach_volume env p dcid vid)
          (fun _ => resBind (create_loop env p dcid vl rest)
            (fun rr => pure (cr :: rr.1, vid :: rr.2.1, rr.2.2))))).2 ≤ 1 := by
  simp only [countCall] at ih ⊢
  refine le_trans (resBind_countP_le (a := 0) (b := 1)
    (by rw [sdkCall_trace]; simp [List.countP_cons]) ?_) (by omega)
  intro cr
  refine le_trans (resBind_countP_le (a := 0) (b := 1)
    (le_of_eq (attach_no_post env p dcid vid dc nm)) ?_) (by omega)
  intro u
  refine le_trans (resBind_countP_le (a := 1) (b := 0) ih ?_) (by omega)
  intro rr
  simp [res_pure_def]

theorem create_loop_post_once (env : SdkEnv) (p : VolumeParams) (dcid : String)
    (vl : ResourceList) (dc : String) (nm : Option String) (m : String)
    (hpost : env.volumes_post dc nm = Except.error m) :
    ∀ names, countCall (SdkCall.volumesPost dc nm) (create_loop env p dcid vl names).2 ≤ 1 := by
  intro names
  induction names with
  | nil => simp [create_loop, res_pure_def, countCall]
  | cons name rest ih =>
    unfold create_loop
    simp only [res_bind_def, countCall]
    refine le_trans (resBind_countP_le (a := 0) (b := 1)
      (by simp [get_resource_idR_trace]) ?_) (by omega)
    intro v
    cases v with
    | some vid => exact create_step_existing env p dcid vl rest dc nm vid ih
    | none => exact create_step_fail_once env p dcid vl rest dc nm m name hpost ih

theorem delete_volume_countP (env : SdkEnv) (p : VolumeParams) :
    (delete_volume env p).2.countP isDeleteCall ≤ p.instance_ids.length := by
  unfold delete_volume
  split
  · simp [failJson]
  · simp only [res_bind_def]
    refine le_trans (resBind_countP_le (a := 0) (b := p.instance_ids.length)
      (by rw [sdkCall_trace]; simp [isDeleteCall, List.countP_cons]) ?_) (by omega)
    intro dl
    refine le_trans (resBind_countP_le (a := 0) (b := p.instance_ids.length)
      (by simp [get_resource_idR_trace]) ?_) (by omega)
    intro did
    refine le_trans (resBind_countP_le (a := 0) (b := p.instance_ids.length)
      (by rw [sdkCall_trace]; simp [isDeleteCall, List.countP_cons]) ?_) (by omega)
    intro vols
    refine le_trans (resBind_countP_le (a := p.instance_ids.length) (b := 0)
      (delete_loop_count env p did vols p.instance_ids false none) ?_) (by omega)
    intro lr
    simp [res_pure_def]

theorem delete_volume_fail_once (env : SdkEnv) (p : VolumeParams) (x : Option String)
    (y : String) (m : String) (hdel : env.volumes_delete x y = Except.error m) :
    countCall (SdkCall.volumesDelete x y) (delete_volume env p).2 ≤ 1 := by
  unfold delete_volume
  split
  · simp [failJson, countCall]
  · simp only [res_bind_def, countCall]
    refine le_trans (resBind_countP_le (a := 0) (b := 1)
      (by rw [sdkCall_trace]; simp [List.countP_cons]) ?_) (by omega)
    intro dl
    refine le_trans (resBind_countP_le (a := 0) (b := 1)
      (by simp [get_resource_idR_trace]) ?_) (by omega)
    intro did
    refine le_trans (resBind_countP_le (a := 0) (b := 1)
      (by rw [sdkCall_trace]; simp [List.countP_cons]) ?_) (by omega)
    intro vols
    refine le_trans (resBind_countP_le (a := 1) (b := 0)
      (delete_loop_fail_once env p did vols x y m hdel p.instance_ids false none) ?_)
      (by omega)
    intro lr
    simp [res_pure_def]

theorem create_volume_post_once (env : SdkEnv) (p : VolumeParams) (dc : String)
    (nm : Option String) (m : String) (hpost : env.volumes_post dc nm = Except.error m) :
    countCall (SdkCall.volumesPost dc nm) (create_volume env p).2 ≤ 1 := by
  unfold create_volume
  simp only [res_bind_def, countCall]
  refine le_trans (resBind_countP_le (a := 0) (b := 1)
    (by rw [sdkCall_trace]; simp [List.countP_cons]) ?_) (by omega)
  intro dl
  refine le_trans (resBind_countP_le (a := 0) (b := 1)
    (by simp [get_resource_idR_trace]) ?_) (by omega)
  intro did
  cases did with
  | none => simp [failJson]
  | some dcid =>
    refine le_trans (resBind_countP_le (a := 0) (b := 1)
      (by simp [create_names_trace]) ?_) (by omega)
    intro names
    refine le_trans (resBind_countP_le (a := 0) (b := 1)
      (by rw [sdkCall_trace]; simp [List.countP_cons]) ?_) (by omega)
    intro vl
    refine le_trans (resBind_countP_le (a := 1) (b := 0)
      (create_loop_post_once env p dcid vl dc nm m hpost names) ?_) (by omega)
    intro lr
    simp [res_pure_def]

/-- Claim C7 (amended): delete_volume performs at most one delete SDK call per
entry of instance_ids, so the same resource can be deleted more than once only
when several identifiers resolve to it (see the counterexample); a failing
delete or create SDK call is never retried: it occurs at most once in the call
trace, because the module terminates on the failure. -/
theorem claim_C7 (env : SdkEnv) (p : VolumeParams) (x : Option String) (y : String)
    (dc : String) (nm : Option String) (m m2 : String)
    (hdel : env.volumes_delete x y = Except.error m)
    (hpost : env.volumes_post dc nm = Except.error m2) :
    (delete_volume env p).2.countP isDeleteCall ≤ p.instance_ids.length ∧
    countCall (SdkCall.volumesDelete x y) (delete_volume env p).2 ≤ 1 ∧
    countCall (SdkCall.volumesPost dc nm) (create_volume env p).2 ≤ 1 :=
  ⟨delete_volume_countP env p,
   delete_volume_fail_once env p x y m hdel,
   create_volume_post_once env p dc nm m2 hpost⟩

/-- Claim C7 counterexample: with instance_ids listing the same volume twice,
the delete SDK operation runs twice for that one resource. -/
theorem claim_C7_counterexample :
    countCall (SdkCall.volumesDelete (some ("dc1")) ("v1"))
      (delete_volume envDel pC7).2 = 2 := by
  decide

theorem claim_C7_witness :
    (delete_volume envFail pC7).2.countP isDeleteCall ≤ pC7.instance_ids.length ∧
    countCall (SdkCall.volumesDelete (some ("dc1")) ("v1"))
      (delete_volume envFail pC7).2 ≤ 1 ∧
    countCall (SdkCall.volumesPost ("dc1") (some ("volx")))
      (create_volume envFail pC7).2 ≤ 1 :=
  claim_C7 envFail pC7 (some ("dc1")) ("v1") ("dc1") (some ("volx"))
    ("delboom") ("postboom") rfl rfl
